import Mathlib

/-!
Verification of the multi-platform SVG asset export pipeline implemented in
`app.py` (class `ConversionWorker`).  The Python worker is shallowly embedded:

* Python floats produced by parsing decimal attribute strings are modelled as
  exact rationals (every claim at issue depends only on zero-ness and on exact
  small decimal values, never on binary rounding);
* the filesystem is modelled as an association list from paths to symbolic
  file contents, threaded through each conversion step;
* exceptions are modelled by an explicit result type `Res`: a step either
  returns `ok` or `exn`, and sequencing (`Res.bind`) propagates `exn` exactly
  as Python propagates an uncaught exception;
* external effects (the cairosvg renderer, the PIL image library, the
  Inkscape subprocess) are modelled by an environment `Env` of boolean
  failure switches: a switch set means that call raises.

Source functions keep their Python names (`convert_to_png`, `convert_to_eps`,
`process_file`, ...).
-/

set_option maxHeartbeats 1000000

namespace SvgMetagen

/-- Value of a list of decimal digit characters read as a natural number. -/
def digitsVal (l : List Char) : ℕ :=
  l.foldl (fun a c => a * 10 + (c.toNat - 48)) 0

/-- Model of `re.search(r'(\d+\.?\d*)', s)`: the leftmost, greedy match of
one digit run, an optional dot, and a further digit run.  Returns the matched
characters, or `none` when the string holds no digit. -/
def findNumToken : List Char → Option (List Char)
  | [] => none
  | c :: cs =>
    if c.isDigit then
      let ds := List.takeWhile Char.isDigit (c :: cs)
      let rest := List.dropWhile Char.isDigit (c :: cs)
      some (match rest with
        | '.' :: rs => ds ++ '.' :: List.takeWhile Char.isDigit rs
        | _ => ds)
    else findNumToken cs

/-- Value of a token matched by `findNumToken` (what Python `float()` returns
on it), as an exact rational. -/
def tokenToRat (tok : List Char) : ℚ :=
  let ip := tok.takeWhile Char.isDigit
  let rest := tok.dropWhile Char.isDigit
  let fp := match rest with
    | _ :: rs => rs
    | [] => []
  (digitsVal ip : ℚ) + (digitsVal fp : ℚ) / ((10 : ℚ) ^ fp.length)

/-- Model of Python `float(s)` on finite decimal literals (optional
surrounding whitespace, optional sign, digits with an optional fractional
part).  Returns `none` when `float()` would raise `ValueError`.  Exotic float
syntax (exponents, inf, nan) is outside the inputs this development reasons
about. -/
def pyFloat (l0 : List Char) : Option ℚ :=
  let l1 := ((l0.dropWhile Char.isWhitespace).reverse.dropWhile Char.isWhitespace).reverse
  let sl : ℚ × List Char :=
    match l1 with
    | '+' :: rs => (1, rs)
    | '-' :: rs => (-1, rs)
    | _ => (1, l1)
  let sg := sl.1
  let l := sl.2
  let ip := l.takeWhile Char.isDigit
  let rest := l.dropWhile Char.isDigit
  match rest with
  | [] => if ip.isEmpty then none else some (sg * (digitsVal ip : ℚ))
  | '.' :: rs =>
    let fp := rs.takeWhile Char.isDigit
    if (rs.dropWhile Char.isDigit).isEmpty then
      if ip.isEmpty && fp.isEmpty then none
      else some (sg * ((digitsVal ip : ℚ) + (digitsVal fp : ℚ) / ((10 : ℚ) ^ fp.length)))
    else none
  | _ => none

/-- Model of Python `int()` applied to a float: truncation toward zero. -/
def pyTrunc (q : ℚ) : ℤ :=
  if 0 ≤ q.num then ((q.num.natAbs / q.den : ℕ) : ℤ)
  else -((q.num.natAbs / q.den : ℕ) : ℤ)

/-- Accumulator loop for `pySplitWs`. -/
def splitWsAux : List Char → List Char → List (List Char)
  | [], acc => if acc.isEmpty then [] else [acc.reverse]
  | c :: cs, acc =>
    if c.isWhitespace then
      if acc.isEmpty then splitWsAux cs []
      else acc.reverse :: splitWsAux cs []
    else splitWsAux cs (c :: acc)

/-- Model of Python `str.split()` with no argument: split on runs of
whitespace, dropping empty fields. -/
def pySplitWs (s : String) : List (List Char) := splitWsAux s.data []

/-- Model of `os.path.basename` for forward-slash paths: the segment after
the last separator. -/
def basename (s : String) : String :=
  ⟨s.data.foldl (fun acc c => if c = '/' then [] else acc ++ [c]) []⟩

/-- Stem part of `os.path.splitext(s)`: everything before the last dot,
where the run of leading dots never counts as an extension separator. -/
def splitextBase (s : String) : String :=
  let l := s.data
  let lead := l.takeWhile (fun c => c = '.')
  let rest := l.dropWhile (fun c => c = '.')
  let extLen := (rest.reverse.takeWhile (fun c => c ≠ '.')).length
  if extLen = rest.length then s
  else ⟨lead ++ rest.take (rest.length - extLen - 1)⟩

/-- Root element of a parsed SVG document: the three attributes
`_get_svg_dimensions` reads.  `none` models an absent attribute. -/
structure SvgRoot where
  width : Option String
  height : Option String
  viewBox : Option String
deriving DecidableEq

/-- An input SVG document as seen by `ET.parse`: either parsing raises
(malformed XML) or it yields a root element. -/
inductive SvgDoc where
  | malformed
  | parsed (root : SvgRoot)
deriving DecidableEq

/-- Attribute-to-number step of `_get_svg_dimensions`: Python
`if width_str:` (falsy for `None` and for the empty string) followed by
`re.search(r'(\d+\.?\d*)', width_str)` and `float` on the matched group. -/
def attrToken (attr : Option String) : Option ℚ :=
  match attr with
  | none => none
  | some s =>
    if s.data.isEmpty then none
    else (findNumToken s.data).map tokenToRat

/-- Python truthiness of an optional float: `None` and `0.0` are falsy. -/
def truthyQ (x : Option ℚ) : Bool :=
  match x with
  | some q => decide (q ≠ 0)
  | none => false

/-- Log message emitted by the `except` arm of `_get_svg_dimensions`. -/
def dimsLogMsg (fname : String) : String :=
  "Could not parse SVG dimensions for " ++ fname

/-- The `viewBox` arm of `_get_svg_dimensions`: split the attribute on
whitespace; with exactly four fields, `float` of the third and fourth.  A
`float` failure there is an exception caught by the enclosing handler, which
logs and returns `None, None`. -/
def viewBoxFallback (vb : Option String) (fname : String) :
    (Option ℚ × Option ℚ) × List String :=
  match vb with
  | some s =>
    if s.data.isEmpty then ((none, none), [])
    else
      match pySplitWs s with
      | [_, _, p2, p3] =>
        match pyFloat p2, pyFloat p3 with
        | some w, some h => ((some w, some h), [])
        | _, _ => ((none, none), [dimsLogMsg fname])
      | _ => ((none, none), [])
  | none => ((none, none), [])

/-- Embedding of `ConversionWorker._get_svg_dimensions`.  Returns the
`(width, height)` pair (each `none` where Python returns `None`) together
with the log messages the call emits. -/
def get_svg_dimensions (doc : SvgDoc) (fname : String) :
    (Option ℚ × Option ℚ) × List String :=
  match doc with
  | .malformed => ((none, none), [dimsLogMsg fname])
  | .parsed root =>
    let width := attrToken root.width
    let height := attrToken root.height
    if truthyQ width && truthyQ height then ((width, height), [])
    else viewBoxFallback root.viewBox fname

/-- Parameters of one call into the cairosvg renderer (`svg2png` /
`svg2eps`): either explicit output pixel dimensions or a uniform scale. -/
structure RenderCall where
  output_width : Option ℤ
  output_height : Option ℤ
  scale : Option ℤ
deriving DecidableEq

/-- Resolution arguments the worker passes to the renderer.  With
`force_1x1` the source computes `base_dim = int(1000 * scale_factor)` (the
factor is an integer, so `int` is the identity) and passes it as both output
dimensions; otherwise it passes `scale=scale_factor`. -/
def rasterCall (force_1x1 : Bool) (scale_factor : ℤ) : RenderCall :=
  if force_1x1 then
    { output_width := some (1000 * scale_factor),
      output_height := some (1000 * scale_factor),
      scale := none }
  else
    { output_width := none, output_height := none, scale := some scale_factor }

/-- Symbolic content of a file produced by the pipeline. -/
inductive FileData where
  | bytes (s : String)
  | pngRender (src : String) (call : RenderCall)
  | jpgRender (src : String) (call : RenderCall)
  | epsRender (src : String) (call : RenderCall)
  | epsInkscape (src : String) (exportWidth : ℤ)
  | svgCropped (src : String)
  | zipArchive (compression : String) (entries : List (String × String))
deriving DecidableEq

/-- Filesystem and temp-file state threaded through the worker. -/
structure St where
  files : List (String × FileData)
  temps : List String
deriving DecidableEq

/-- Write (or overwrite) a file. -/
def setFile (fs : List (String × FileData)) (p : String) (d : FileData) :
    List (String × FileData) :=
  (fs.filter (fun e => !(e.1 == p))) ++ [(p, d)]

/-- Delete a file. -/
def removeFile (fs : List (String × FileData)) (p : String) :
    List (String × FileData) :=
  fs.filter (fun e => !(e.1 == p))

/-- Model of `os.path.exists` on a real (non-`None`) path. -/
def existsFile (fs : List (String × FileData)) (p : String) : Bool :=
  fs.any (fun e => e.1 == p)

/-- Content of a file, when present. -/
def getFile (fs : List (String × FileData)) (p : String) : Option FileData :=
  (fs.find? (fun e => e.1 == p)).map (fun e => e.2)

/-- Tag naming which worker method a step event came from. -/
inductive StepTag where
  | png
  | jpg
  | eps
  | copy
  | cropped
  | zip
  | del
deriving DecidableEq

/-- Observable events of a run: log messages (`log_update.emit`) and entry
into a format-producing method (instrumentation making the executed step
sequence explicit). -/
inductive Ev where
  | log (msg : String)
  | step (platform : String) (tag : StepTag)
deriving DecidableEq

/-- Result of running a fragment of worker code: a value, final state and
events on normal return, or a propagating Python exception. -/
inductive Res (α : Type) where
  | ok (val : α) (st : St) (evs : List Ev)
  | exn (err : String) (st : St) (evs : List Ev)
deriving DecidableEq

/-- True on the `ok` constructor: the fragment returned without raising. -/
def Res.isOk {α : Type} : Res α → Bool
  | .ok .. => true
  | .exn .. => false

/-- Final state, whether or not an exception propagated. -/
def Res.state {α : Type} : Res α → St
  | .ok _ st _ => st
  | .exn _ st _ => st

/-- Events emitted up to return or up to the exception. -/
def Res.events {α : Type} : Res α → List Ev
  | .ok _ _ evs => evs
  | .exn _ _ evs => evs

/-- Returned value, when the fragment returned normally. -/
def Res.val {α : Type} : Res α → Option α
  | .ok v _ _ => some v
  | .exn .. => none

/-- Message of the propagating exception, if any. -/
def Res.errMsg {α : Type} : Res α → Option String
  | .ok .. => none
  | .exn e _ _ => some e

/-- Sequencing with Python exception propagation: a raised exception skips
the continuation. -/
def Res.bind {α β : Type} (r : Res α) (f : α → St → Res β) : Res β :=
  match r with
  | .ok v st evs =>
    match f v st with
    | .ok w st2 evs2 => .ok w st2 (evs ++ evs2)
    | .exn e st2 evs2 => .exn e st2 (evs ++ evs2)
  | .exn e st evs => .exn e st evs

/-- Sequencing that discards the value. -/
def Res.seq {α β : Type} (r : Res α) (f : St → Res β) : Res β :=
  r.bind (fun _ st => f st)

/-- Prepend events emitted before the given fragment. -/
def Res.withEvs {α : Type} (pre : List Ev) : Res α → Res α
  | .ok v st evs => .ok v st (pre ++ evs)
  | .exn e st evs => .exn e st (pre ++ evs)

/-- Failure switches for the external capabilities one asset exercises: a
set switch means the corresponding library call or subprocess raises, and
`removeFails` lists the paths whose `os.remove` raises. -/
structure Env where
  svg2pngFails : Bool
  svg2epsFails : Bool
  imageLibFails : Bool
  copyFails : Bool
  zipOpenFails : Bool
  inkscapeFound : Bool
  inkscapeEpsFails : Bool
  inkscapeCropFails : Bool
  removeFails : List String
deriving DecidableEq

/-- Job configuration held by the `ConversionWorker` instance. -/
structure Cfg where
  output_dir : String
  selected_formats : List String
  scale_factor : ℤ
  force_1x1 : Bool
deriving DecidableEq

/-- One input SVG asset: its path, basename, raw bytes and parsed form. -/
structure Asset where
  path : String
  name : String
  bytes : String
  doc : SvgDoc
deriving DecidableEq

/-- Output path `os.path.join(output_dir, platform, base_name + ext)`. -/
def outPath (cfg : Cfg) (platform base ext : String) : String :=
  cfg.output_dir ++ "/" ++ platform ++ "/" ++ base ++ ext

/-- Deterministic name standing for the `NamedTemporaryFile` of one
`convert_to_jpg` call. -/
def tempName (base platform : String) : String :=
  "tmp/" ++ platform ++ "/" ++ base ++ ".png"

/-- Embedding of `ConversionWorker.convert_to_png`: one `svg2png` call with
the `rasterCall` resolution arguments; an uncaught renderer exception
propagates. -/
def convert_to_png (env : Env) (cfg : Cfg) (a : Asset) (base platform : String)
    (st : St) : Res String :=
  let output_path := outPath cfg platform base ".png"
  if env.svg2pngFails then
    .exn "cairosvg svg2png error" st [.step platform .png]
  else
    let call := rasterCall cfg.force_1x1 cfg.scale_factor
    let msg :=
      if cfg.force_1x1 then
        "Created PNG (transparent, " ++ toString (1000 * cfg.scale_factor) ++ "x" ++
          toString (1000 * cfg.scale_factor) ++ "px): " ++ output_path
      else
        "Created PNG (transparent, scaled by " ++ toString cfg.scale_factor ++ "x): " ++
          output_path
    .ok output_path { st with files := setFile st.files output_path (.pngRender a.path call) }
      [.step platform .png, .log msg]

/-- Embedding of `ConversionWorker.convert_to_jpg`: create the temporary
PNG (`delete=False`), render into it, flatten and encode, then `os.unlink`
the temporary.  The source has no `try`/`finally`, so a renderer or image
library exception leaves the temporary file behind and propagates. -/
def convert_to_jpg (env : Env) (cfg : Cfg) (a : Asset) (base platform : String)
    (st : St) : Res String :=
  let output_path := outPath cfg platform base ".jpg"
  let temp := tempName base platform
  let st1 : St := { st with temps := st.temps ++ [temp] }
  if env.svg2pngFails then
    .exn "cairosvg svg2png error" st1 [.step platform .jpg]
  else if env.imageLibFails then
    .exn "PIL error" st1 [.step platform .jpg]
  else
    let call := rasterCall cfg.force_1x1 cfg.scale_factor
    .ok output_path
      { st1 with
        files := setFile st1.files output_path (.jpgRender a.path call),
        temps := st1.temps.filter (fun t => !(t == temp)) }
      [.step platform .jpg, .log ("Created JPG: " ++ output_path)]

/-- Embedding of `ConversionWorker.copy_svg`: byte-for-byte copy of the
source into the platform directory; an I/O error propagates. -/
def copy_svg (env : Env) (cfg : Cfg) (a : Asset) (base platform : String)
    (st : St) : Res String :=
  let output_path := outPath cfg platform base ".svg"
  if env.copyFails then
    .exn "IO error" st [.step platform .copy]
  else
    .ok output_path { st with files := setFile st.files output_path (.bytes a.bytes) }
      [.step platform .copy, .log ("Copied SVG: " ++ output_path)]

/-- Substitution message logged when the Inkscape fallback cannot use a
parsed width. -/
def epsDefaultMsg : String := "Could not determine SVG width, using default for scaling."

/-- Width computation of the Inkscape fallback inside `convert_to_eps`:
`int(width * scale_factor)` when the parsed width is truthy (non-`None` and
nonzero), otherwise the default `int(1000 * scale_factor)` plus the
substitution log.  Returns the `--export-width` value and the log messages
of this fragment (including those of `_get_svg_dimensions`). -/
def epsFallbackWidth (doc : SvgDoc) (fname : String) (scale_factor : ℤ) :
    ℤ × List String :=
  let wd := get_svg_dimensions doc fname
  match wd.1.1 with
  | some w =>
    if w ≠ 0 then (pyTrunc (w * (scale_factor : ℚ)), wd.2)
    else (1000 * scale_factor, wd.2 ++ [epsDefaultMsg])
  | none => (1000 * scale_factor, wd.2 ++ [epsDefaultMsg])

/-- Embedding of `ConversionWorker.convert_to_eps`: try the cairosvg
`svg2eps` path first; on its failure fall back to the Inkscape subprocess
(raising `FileNotFoundError` into the inner handler when the executable is
not found); every failure of the fallback is caught and `None` is returned.
No exception escapes this method. -/
def convert_to_eps (env : Env) (cfg : Cfg) (a : Asset) (base platform : String)
    (st : St) : Res (Option String) :=
  let output_path := outPath cfg platform base ".eps"
  if env.svg2epsFails then
    let evs0 : List Ev := [.step platform .eps,
      .log "ERROR creating EPS with cairosvg: render error",
      .log "cairosvg failed, falling back to Inkscape for EPS conversion."]
    if !env.inkscapeFound then
      .ok none st (evs0 ++
        [.log "ERROR creating EPS with Inkscape fallback: Inkscape executable not found for fallback"])
    else
      let wres := epsFallbackWidth a.doc a.name cfg.scale_factor
      let evs1 := evs0 ++ wres.2.map Ev.log
      if env.inkscapeEpsFails then
        .ok none st (evs1 ++ [.log "ERROR creating EPS with Inkscape fallback: subprocess error"])
      else
        .ok (some output_path)
          { st with files := setFile st.files output_path (.epsInkscape a.path wres.1) }
          (evs1 ++ [.log ("Created EPS (via Inkscape fallback): " ++ output_path)])
  else
    let call := rasterCall cfg.force_1x1 cfg.scale_factor
    let msg :=
      if cfg.force_1x1 then
        "Created EPS (" ++ toString (1000 * cfg.scale_factor) ++ "x" ++
          toString (1000 * cfg.scale_factor) ++ "px): " ++ output_path
      else
        "Created EPS (scaled by " ++ toString cfg.scale_factor ++ "x): " ++ output_path
    .ok (some output_path)
      { st with files := setFile st.files output_path (.epsRender a.path call) }
      [.step platform .eps, .log msg]

/-- Embedding of `ConversionWorker.convert_svg_cropped`: run the Inkscape
crop when the executable resolves; when it does not resolve, or the
subprocess raises `CalledProcessError`, log a warning and fall back to
`copy_svg` into the same destination. -/
def convert_svg_cropped (env : Env) (cfg : Cfg) (a : Asset) (base platform : String)
    (st : St) : Res String :=
  let output_path := outPath cfg platform base ".svg"
  if !env.inkscapeFound then
    Res.withEvs [.step platform .cropped,
        .log "WARNING: Inkscape not found, falling back to basic cropping"]
      (copy_svg env cfg a base platform st)
  else if env.inkscapeCropFails then
    Res.withEvs [.step platform .cropped,
        .log "WARNING: Inkscape cropping failed: subprocess error, falling back to basic cropping"]
      (copy_svg env cfg a base platform st)
  else
    .ok output_path { st with files := setFile st.files output_path (.svgCropped a.path) }
      [.step platform .cropped, .log ("Created cropped SVG using Inkscape: " ++ output_path)]

/-- Entry collection loop of `create_zip_file`.  `os.path.exists(None)`
raises `TypeError` (only `OSError`/`ValueError` are swallowed inside
`genericpath.exists`), so a `None` list element aborts the loop; entries
collected before the abort are already in the archive. -/
def zipCollect (fs : List (String × FileData)) :
    List (Option String) → List (String × String) × Option String
  | [] => ([], none)
  | none :: _ => ([], some "TypeError: os.path.exists(None)")
  | some p :: rest =>
    let head := if existsFile fs p then [(basename p, p)] else []
    let res := zipCollect fs rest
    (head ++ res.1, res.2)

/-- Embedding of `ConversionWorker.create_zip_file`: a `ZIP_DEFLATED`
archive of every listed path that exists, stored under its basename.  The
`with` block writes the archive even when the loop raises, and the
exception then propagates. -/
def create_zip_file (env : Env) (cfg : Cfg) (file_paths : List (Option String))
    (base platform : String) (st : St) : Res String :=
  let zip_path := outPath cfg platform base ".zip"
  if env.zipOpenFails then
    .exn "zipfile IO error" st [.step platform .zip]
  else
    let col := zipCollect st.files file_paths
    let st2 : St := { st with files := setFile st.files zip_path (.zipArchive "ZIP_DEFLATED" col.1) }
    match col.2 with
    | some e => .exn e st2 [.step platform .zip]
    | none => .ok zip_path st2 [.step platform .zip, .log ("Created ZIP: " ++ zip_path)]

/-- Per-path loop of `delete_files`: skip missing paths, delete the others,
catch and log each `os.remove` failure and continue.  As in `zipCollect`,
`os.path.exists(None)` raises `TypeError`. -/
def delete_files_loop (env : Env) : List (Option String) → St → Res Unit
  | [], st => .ok () st []
  | none :: _, st => .exn "TypeError: os.path.exists(None)" st []
  | some p :: rest, st =>
    if existsFile st.files p then
      if env.removeFails.contains p then
        Res.withEvs [.log ("ERROR deleting file " ++ p ++ ": OSError")]
          (delete_files_loop env rest st)
      else
        Res.withEvs [.log ("Deleted file: " ++ p)]
          (delete_files_loop env rest { st with files := removeFile st.files p })
    else delete_files_loop env rest st

/-- Embedding of `ConversionWorker.delete_files`. -/
def delete_files (env : Env) (file_paths : List (Option String)) (st : St) : Res Unit :=
  Res.withEvs [.step "" .del] (delete_files_loop env file_paths st)

/-- Embedding of `ConversionWorker.process_file`: the eight per-platform
recipe branches, in source order, each guarded by membership of the platform
key in `selected_formats`. -/
def process_file (env : Env) (cfg : Cfg) (a : Asset) (st0 : St) : Res Unit :=
  let base := splitextBase a.name
  let r1 : Res Unit :=
    if cfg.selected_formats.contains "shutterstock" then
      (convert_to_eps env cfg a base "Shutterstock" st0).seq (fun st => .ok () st [])
    else .ok () st0 []
  let r2 := r1.seq (fun st =>
    if cfg.selected_formats.contains "vectorstock" then
      (convert_to_eps env cfg a base "Vectorstock" st).seq (fun st =>
        (convert_to_jpg env cfg a base "Vectorstock" st).seq (fun st => .ok () st []))
    else .ok () st [])
  let r3 := r2.seq (fun st =>
    if cfg.selected_formats.contains "pngtree" then
      (convert_to_png env cfg a base "PNGTree" st).bind (fun png_path st =>
        (convert_to_eps env cfg a base "PNGTree" st).bind (fun eps_path st =>
          (create_zip_file env cfg [some png_path, eps_path] base "PNGTree" st).seq (fun st =>
            (delete_files env [some png_path, eps_path] st).seq (fun st => .ok () st []))))
    else .ok () st [])
  let r4 := r3.seq (fun st =>
    if cfg.selected_formats.contains "dreamstime" then
      (convert_to_jpg env cfg a base "Dreamstime" st).seq (fun st =>
        (convert_to_eps env cfg a base "Dreamstime" st).seq (fun st => .ok () st []))
    else .ok () st [])
  let r5 := r4.seq (fun st =>
    if cfg.selected_formats.contains "adobestock" then
      (copy_svg env cfg a base "AdobeStock" st).seq (fun st => .ok () st [])
    else .ok () st [])
  let r6 := r5.seq (fun st =>
    if cfg.selected_formats.contains "canva" then
      (convert_to_png env cfg a base "Canva" st).seq (fun st => .ok () st [])
    else .ok () st [])
  let r7 := r6.seq (fun st =>
    if cfg.selected_formats.contains "miricanvas" then
      (convert_svg_cropped env cfg a base "MiriCanvas" st).seq (fun st => .ok () st [])
    else .ok () st [])
  r7.seq (fun st =>
    if cfg.selected_formats.contains "desainstock" then
      (convert_to_jpg env cfg a base "Desainstock" st).seq (fun st => .ok () st [])
    else .ok () st [])

/-- Per-file loop body of `ConversionWorker.run`: log the file, process it,
continue with the rest; an exception from `process_file` propagates out of
the loop. -/
def runFilesLoop (cfg : Cfg) : List (Asset × Env) → St → Res Unit
  | [], st => .ok () st []
  | (a, env) :: rest, st =>
    Res.withEvs [.log ("Processing: " ++ a.name)]
      ((process_file env cfg a st).seq (fun st => runFilesLoop cfg rest st))

/-- Terminal outcome of `ConversionWorker.run`: `errorOccurred` carries the
message emitted through the `error_occurred` signal when the job-level
handler caught a propagating exception. -/
structure RunResult where
  st : St
  evs : List Ev
  errorOccurred : Option String
deriving DecidableEq

/-- Embedding of `ConversionWorker.run`: iterate the files inside one
`try`; any exception reaching the loop aborts the whole job and is surfaced
via `error_occurred`. -/
def ConversionWorker_run (cfg : Cfg) (files : List (Asset × Env)) (st0 : St) : RunResult :=
  match runFilesLoop cfg files st0 with
  | .ok _ st evs =>
    { st := st, evs := evs ++ [.log "All conversions completed successfully!"],
      errorOccurred := none }
  | .exn e st evs => { st := st, evs := evs, errorOccurred := some e }

/-- Step events of a trace, in order. -/
def stepTrace (evs : List Ev) : List (String × StepTag) :=
  evs.filterMap (fun e =>
    match e with
    | .step p t => some (p, t)
    | _ => none)

/-- Environment of a run on which every external capability succeeds. -/
def cleanEnv : Env :=
  { svg2pngFails := false, svg2epsFails := false, imageLibFails := false,
    copyFails := false, zipOpenFails := false, inkscapeFound := true,
    inkscapeEpsFails := false, inkscapeCropFails := false, removeFails := [] }

/-- Environment on which both EPS tiers fail: the cairosvg path raises and
the Inkscape executable does not resolve. -/
def epsBothFailEnv : Env := { cleanEnv with svg2epsFails := true, inkscapeFound := false }

/-- Environment on which the PNG renderer raises. -/
def pngFailEnv : Env := { cleanEnv with svg2pngFails := true }

/-- A representative well-formed input asset. -/
def logo : Asset :=
  { path := "in/logo.svg", name := "logo.svg", bytes := "SVGDATA",
    doc := .parsed { width := some "200", height := some "100", viewBox := none } }

/-- First asset of a two-asset job. -/
def logoA : Asset := { logo with name := "a.svg", path := "in/a.svg" }

/-- Second asset of a two-asset job. -/
def logoB : Asset := { logo with name := "b.svg", path := "in/b.svg" }

/-- A document whose `viewBox` third token parses to the number `0`, so the
metadata reader returns a known zero width. -/
def zeroWidthDoc : SvgDoc :=
  .parsed { width := none, height := none, viewBox := some "0 0 0 100" }

/-- The representative asset with the zero-width document. -/
def logoZ : Asset := { logo with doc := zeroWidthDoc }

/-- Job configuration selecting a single platform into output root `out`. -/
def cfgFor (p : String) (f : ℤ) (fr : Bool) : Cfg :=
  { output_dir := "out", selected_formats := [p], scale_factor := f, force_1x1 := fr }

/-- Empty initial filesystem. -/
def st0 : St := { files := [], temps := [] }

/-!  Helper lemmas about the effect model. -/

/-- Prepending events does not change whether a fragment raised. -/
@[simp]
theorem Res.isOk_withEvs {α : Type} (pre : List Ev) (r : Res α) :
    (Res.withEvs pre r).isOk = r.isOk := by
  cases r <;> rfl

/-- Prepending events does not change the final state. -/
@[simp]
theorem Res.state_withEvs {α : Type} (pre : List Ev) (r : Res α) :
    (Res.withEvs pre r).state = r.state := by
  cases r <;> rfl

/-- Prepending events prepends them to the event trace. -/
@[simp]
theorem Res.events_withEvs {α : Type} (pre : List Ev) (r : Res α) :
    (Res.withEvs pre r).events = pre ++ r.events := by
  cases r <;> rfl

/-- Prepending events does not change the returned value. -/
@[simp]
theorem Res.val_withEvs {α : Type} (pre : List Ev) (r : Res α) :
    (Res.withEvs pre r).val = r.val := by
  cases r <;> rfl

/-- A fragment that returned normally is `isOk`. -/
@[simp]
theorem Res.isOk_ok {α : Type} (v : α) (st : St) (evs : List Ev) :
    (Res.ok v st evs).isOk = true := rfl

/-- A fragment that raised is not `isOk`. -/
@[simp]
theorem Res.isOk_exn {α : Type} (e : String) (st : St) (evs : List Ev) :
    (Res.exn e st evs : Res α).isOk = false := rfl

/-- Value of a normal return. -/
@[simp]
theorem Res.val_ok {α : Type} (v : α) (st : St) (evs : List Ev) :
    (Res.ok v st evs).val = some v := rfl

/-- State of a normal return. -/
@[simp]
theorem Res.state_ok {α : Type} (v : α) (st : St) (evs : List Ev) :
    (Res.ok v st evs).state = st := rfl

/-- Events of a normal return. -/
@[simp]
theorem Res.events_ok {α : Type} (v : α) (st : St) (evs : List Ev) :
    (Res.ok v st evs).events = evs := rfl

/-- A freshly written file reads back as written. -/
theorem getFile_setFile (fs : List (String × FileData)) (p : String) (d : FileData) :
    getFile (setFile fs p d) p = some d := by
  unfold getFile setFile
  induction fs with
  | nil => simp [List.find?]
  | cons e t ih =>
    by_cases h : e.1 = p
    · simp only [List.filter_cons, h]
      simp only [beq_self_eq_true, Bool.not_true, if_false]
      exact ih
    · simp only [List.filter_cons]
      have hb : (e.1 == p) = false := by simp [h]
      simp only [hb, Bool.not_false, if_true, List.cons_append, List.find?, hb]
      exact ih

/-- C2: for each of the eight platform identifiers, processing one valid SVG
on a clean environment executes exactly the recipe-table step sequence, in
order — shutterstock: EPS; vectorstock: EPS then JPG; pngtree: PNG, EPS, ZIP
of both, then delete both; dreamstime: JPG then EPS; adobestock: SVG copy;
canva: PNG; miricanvas: cropped SVG; desainstock: JPG — and leaves in the
platform directory exactly the declared file set, with no extras, no
omissions, and no leaked temporaries, for every scale factor and either
square mode. -/
theorem c2_recipe_table (f : ℤ) (fr : Bool) :
    (let r := process_file cleanEnv (cfgFor "shutterstock" f fr) logo st0
     r.errMsg = none ∧ stepTrace r.events = [("Shutterstock", .eps)] ∧
       r.state.files.map Prod.fst = ["out/Shutterstock/logo.eps"] ∧ r.state.temps = []) ∧
    (let r := process_file cleanEnv (cfgFor "vectorstock" f fr) logo st0
     r.errMsg = none ∧
       stepTrace r.events = [("Vectorstock", .eps), ("Vectorstock", .jpg)] ∧
       r.state.files.map Prod.fst = ["out/Vectorstock/logo.eps", "out/Vectorstock/logo.jpg"] ∧
       r.state.temps = []) ∧
    (let r := process_file cleanEnv (cfgFor "pngtree" f fr) logo st0
     r.errMsg = none ∧
       stepTrace r.events =
         [("PNGTree", .png), ("PNGTree", .eps), ("PNGTree", .zip), ("", .del)] ∧
       r.state.files.map Prod.fst = ["out/PNGTree/logo.zip"] ∧
       getFile r.state.files "out/PNGTree/logo.zip" =
         some (.zipArchive "ZIP_DEFLATED"
           [("logo.png", "out/PNGTree/logo.png"), ("logo.eps", "out/PNGTree/logo.eps")]) ∧
       r.state.temps = []) ∧
    (let r := process_file cleanEnv (cfgFor "dreamstime" f fr) logo st0
     r.errMsg = none ∧
       stepTrace r.events = [("Dreamstime", .jpg), ("Dreamstime", .eps)] ∧
       r.state.files.map Prod.fst = ["out/Dreamstime/logo.jpg", "out/Dreamstime/logo.eps"] ∧
       r.state.temps = []) ∧
    (let r := process_file cleanEnv (cfgFor "adobestock" f fr) logo st0
     r.errMsg = none ∧ stepTrace r.events = [("AdobeStock", .copy)] ∧
       r.state.files = [("out/AdobeStock/logo.svg", .bytes logo.bytes)] ∧
       r.state.temps = []) ∧
    (let r := process_file cleanEnv (cfgFor "canva" f fr) logo st0
     r.errMsg = none ∧ stepTrace r.events = [("Canva", .png)] ∧
       r.state.files.map Prod.fst = ["out/Canva/logo.png"] ∧ r.state.temps = []) ∧
    (let r := process_file cleanEnv (cfgFor "miricanvas" f fr) logo st0
     r.errMsg = none ∧ stepTrace r.events = [("MiriCanvas", .cropped)] ∧
       r.state.files = [("out/MiriCanvas/logo.svg", .svgCropped logo.path)] ∧
       r.state.temps = []) ∧
    (let r := process_file cleanEnv (cfgFor "desainstock" f fr) logo st0
     r.errMsg = none ∧ stepTrace r.events = [("Desainstock", .jpg)] ∧
       r.state.files.map Prod.fst = ["out/Desainstock/logo.jpg"] ∧ r.state.temps = []) := by
  exact ⟨⟨rfl, rfl, rfl, rfl⟩, ⟨rfl, rfl, rfl, rfl⟩, ⟨rfl, rfl, rfl, rfl, rfl⟩,
    ⟨rfl, rfl, rfl, rfl⟩, ⟨rfl, rfl, rfl, rfl⟩, ⟨rfl, rfl, rfl, rfl⟩,
    ⟨rfl, rfl, rfl, rfl⟩, ⟨rfl, rfl, rfl, rfl⟩⟩

/-- C3: with `force_1x1` the renderer is asked for explicit output width and
height, both equal to `1000 * scale_factor`, for the PNG as well as the EPS
path, independently of the source document; without it the renderer receives
`scale_factor` as a uniform scale.  The last two conjuncts show the produced
PNG and primary-path EPS files record exactly these resolution arguments. -/
theorem c3_square_mode (f : ℤ) (env : Env) (cfg : Cfg) (a : Asset)
    (base platform : String) (st : St) :
    (rasterCall true f).output_width = some (1000 * f) ∧
    (rasterCall true f).output_height = some (1000 * f) ∧
    rasterCall false f = { output_width := none, output_height := none, scale := some f } ∧
    (env.svg2pngFails = false →
      getFile (convert_to_png env cfg a base platform st).state.files
          (outPath cfg platform base ".png")
        = some (.pngRender a.path (rasterCall cfg.force_1x1 cfg.scale_factor))) ∧
    (env.svg2epsFails = false →
      getFile (convert_to_eps env cfg a base platform st).state.files
          (outPath cfg platform base ".eps")
        = some (.epsRender a.path (rasterCall cfg.force_1x1 cfg.scale_factor))) := by
  refine ⟨rfl, rfl, rfl, ?_, ?_⟩
  · intro h
    simp only [convert_to_png, h, Bool.false_eq_true, if_false, Res.state]
    exact getFile_setFile _ _ _
  · intro h
    simp only [convert_to_eps, h, Bool.false_eq_true, if_false, Res.state]
    exact getFile_setFile _ _ _

/-- Witness for `c3_square_mode`: discharging the success hypotheses on the
clean environment at a concrete configuration. -/
theorem c3_square_mode_witness :
    getFile (convert_to_png cleanEnv (cfgFor "canva" 3 true) logo "logo" "Canva" st0).state.files
        (outPath (cfgFor "canva" 3 true) "Canva" "logo" ".png")
      = some (.pngRender logo.path (rasterCall true 3)) :=
  (c3_square_mode 3 cleanEnv (cfgFor "canva" 3 true) logo "logo" "Canva" st0).2.2.2.1 rfl

/-- C1 counterexample: the claim says no per-step failure ever aborts the
asset or the whole job, but a PNG-step failure on the first of two assets
propagates to the job-level handler: the run reports an error and the second
asset is never processed (its output file does not exist). -/
theorem c1_counterexample :
    (ConversionWorker_run (cfgFor "canva" 1 false)
        [(logoA, pngFailEnv), (logoB, cleanEnv)] st0).errorOccurred
      = some "cairosvg svg2png error" ∧
    existsFile (ConversionWorker_run (cfgFor "canva" 1 false)
        [(logoA, pngFailEnv), (logoB, cleanEnv)] st0).st.files "out/Canva/b.png" = false ∧
    stepTrace (ConversionWorker_run (cfgFor "canva" 1 false)
        [(logoA, pngFailEnv), (logoB, cleanEnv)] st0).evs = [("Canva", .png)] :=
  ⟨rfl, rfl, rfl⟩

/-- C1 amended: only the EPS step and the cropped-SVG step catch their
failures (logging them and recording a failed outcome) so that processing
continues; an exception inside the PNG, JPG or SVG-copy converters is not
caught per step — it propagates and aborts the asset and the whole job,
leaving the remaining assets unprocessed — while an EPS failure indeed does
not abort the job. -/
theorem c1_amended :
    (∀ (env : Env) (cfg : Cfg) (a : Asset) (base platform : String) (st : St),
      (env.svg2pngFails = true → (convert_to_png env cfg a base platform st).isOk = false) ∧
      ((env.svg2pngFails || env.imageLibFails) = true →
        (convert_to_jpg env cfg a base platform st).isOk = false) ∧
      (env.copyFails = true → (copy_svg env cfg a base platform st).isOk = false) ∧
      (convert_to_eps env cfg a base platform st).isOk = true ∧
      (env.copyFails = false → (convert_svg_cropped env cfg a base platform st).isOk = true)) ∧
    (let r := ConversionWorker_run (cfgFor "vectorstock" 1 false)
        [(logoA, epsBothFailEnv), (logoB, cleanEnv)] st0
     r.errorOccurred = none ∧
       existsFile r.st.files "out/Vectorstock/a.jpg" = true ∧
       existsFile r.st.files "out/Vectorstock/b.jpg" = true ∧
       existsFile r.st.files "out/Vectorstock/a.eps" = false ∧
       Ev.log "ERROR creating EPS with cairosvg: render error" ∈ r.evs) ∧
    (let r := ConversionWorker_run (cfgFor "canva" 1 false)
        [(logoA, pngFailEnv), (logoB, cleanEnv)] st0
     r.errorOccurred.isSome = true ∧ existsFile r.st.files "out/Canva/b.png" = false) := by
  refine ⟨?_, ?_, ?_⟩
  · intro env cfg a base platform st
    refine ⟨?_, ?_, ?_, ?_, ?_⟩
    · intro h
      simp [convert_to_png, h, Res.isOk]
    · intro h
      cases hp : env.svg2pngFails with
      | true => simp [convert_to_jpg, hp, Res.isOk]
      | false =>
        rw [hp, Bool.false_or] at h
        simp [convert_to_jpg, hp, h, Res.isOk]
    · intro h
      simp [copy_svg, h, Res.isOk]
    · cases h2 : env.svg2epsFails <;> cases h6 : env.inkscapeFound <;>
        cases h7 : env.inkscapeEpsFails <;>
        simp [convert_to_eps, h2, h6, h7, Res.isOk]
    · intro h
      cases h6 : env.inkscapeFound <;> cases h8 : env.inkscapeCropFails <;>
        simp [convert_svg_cropped, copy_svg, h, h6, h8]
  · exact ⟨rfl, rfl, rfl, rfl, by decide⟩
  · exact ⟨rfl, rfl⟩

/-- Witness for `c1_amended`: the PNG converter raises on a failing
renderer, and the EPS converter never raises, at concrete inputs. -/
theorem c1_amended_witness :
    (convert_to_png pngFailEnv (cfgFor "canva" 1 false) logo "logo" "Canva" st0).isOk = false ∧
    (convert_to_eps cleanEnv (cfgFor "canva" 1 false) logo "logo" "Canva" st0).isOk = true :=
  ⟨(c1_amended.1 pngFailEnv (cfgFor "canva" 1 false) logo "logo" "Canva" st0).1 rfl,
   (c1_amended.1 cleanEnv (cfgFor "canva" 1 false) logo "logo" "Canva" st0).2.2.2.1⟩

/-- Environment varying exactly the three switches `convert_to_eps`
branches on. -/
def mkEpsEnv (b1 b2 b3 : Bool) : Env :=
  { cleanEnv with svg2epsFails := b1, inkscapeFound := b2, inkscapeEpsFails := b3 }

/-- C4 counterexample: when both EPS tiers fail inside the pngtree recipe,
`convert_to_eps` does return `None` without raising, but the remaining steps
of that file do not run to completion: the archive step raises a `TypeError`
on the `None` path (`os.path.exists(None)`), the delete step is never
reached (the undeleted PNG is left behind), and the whole job aborts. -/
theorem c4_counterexample :
    (process_file epsBothFailEnv (cfgFor "pngtree" 1 false) logo st0).errMsg
      = some "TypeError: os.path.exists(None)" ∧
    stepTrace (process_file epsBothFailEnv (cfgFor "pngtree" 1 false) logo st0).events
      = [("PNGTree", .png), ("PNGTree", .eps), ("PNGTree", .zip)] ∧
    existsFile (process_file epsBothFailEnv (cfgFor "pngtree" 1 false) logo st0).state.files
      "out/PNGTree/logo.png" = true ∧
    (ConversionWorker_run (cfgFor "pngtree" 1 false)
        [(logoA, epsBothFailEnv), (logoB, cleanEnv)] st0).errorOccurred.isSome = true :=
  ⟨rfl, rfl, rfl, rfl⟩

/-- C4 amended: `convert_to_eps` attempts the cairosvg tier first and the
Inkscape fallback is attempted exactly when that tier fails; when both
tiers fail the step returns `None` instead of raising, and the immediately
following steps of the file still run (shown for vectorstock, whose JPG is
still produced) — except that in the pngtree recipe the `None` path makes
the subsequent archive step raise a `TypeError`, aborting the remaining
steps and the job. -/
theorem c4_amended :
    (∀ (env : Env) (cfg : Cfg) (a : Asset) (base platform : String) (st : St),
      (convert_to_eps env cfg a base platform st).isOk = true ∧
      (env.svg2epsFails = false →
        (convert_to_eps env cfg a base platform st).val
          = some (some (outPath cfg platform base ".eps")))) ∧
    (∀ b1 b2 b3 : Bool,
      ((Ev.log "cairosvg failed, falling back to Inkscape for EPS conversion.")
          ∈ (convert_to_eps (mkEpsEnv b1 b2 b3) (cfgFor "shutterstock" 1 false)
              logo "logo" "Shutterstock" st0).events) ↔ b1 = true) ∧
    (∀ b2 b3 : Bool, (b2 = false ∨ b3 = true) →
      (convert_to_eps (mkEpsEnv true b2 b3) (cfgFor "shutterstock" 1 false)
          logo "logo" "Shutterstock" st0).val = some none) ∧
    (let r := process_file epsBothFailEnv (cfgFor "vectorstock" 1 false) logo st0
     r.errMsg = none ∧ existsFile r.state.files "out/Vectorstock/logo.jpg" = true ∧
       existsFile r.state.files "out/Vectorstock/logo.eps" = false) ∧
    (let r := process_file epsBothFailEnv (cfgFor "pngtree" 1 false) logo st0
     r.errMsg = some "TypeError: os.path.exists(None)" ∧
       (("", StepTag.del) ∈ stepTrace r.events) = False) := by
  refine ⟨?_, ?_, ?_, ?_, ?_⟩
  · intro env cfg a base platform st
    constructor
    · cases h2 : env.svg2epsFails <;> cases h6 : env.inkscapeFound <;>
        cases h7 : env.inkscapeEpsFails <;>
        simp [convert_to_eps, h2, h6, h7, Res.isOk]
    · intro h
      simp [convert_to_eps, h, Res.val]
  · intro b1 b2 b3
    cases b1 <;> cases b2 <;> cases b3 <;> decide
  · intro b2 b3 h
    rcases h with h | h
    · subst h; cases b3 <;> decide
    · subst h; cases b2 <;> decide
  · exact ⟨rfl, rfl, rfl⟩
  · exact ⟨rfl, by decide⟩

/-- Witness for `c4_amended`: the primary tier alone produces the EPS path
on the clean environment, and the both-tiers-fail case returns `None`. -/
theorem c4_amended_witness :
    (convert_to_eps cleanEnv (cfgFor "shutterstock" 2 false) logo "logo" "Shutterstock" st0).val
      = some (some (outPath (cfgFor "shutterstock" 2 false) "Shutterstock" "logo" ".eps")) ∧
    (convert_to_eps (mkEpsEnv true false false) (cfgFor "shutterstock" 1 false)
        logo "logo" "Shutterstock" st0).val = some none :=
  ⟨(c4_amended.1 cleanEnv (cfgFor "shutterstock" 2 false) logo "logo" "Shutterstock" st0).2 rfl,
   c4_amended.2.2.1 false false (Or.inl rfl)⟩

/-- A token made of digits only has no fractional part. -/
theorem tokenToRat_intlike (l : List Char) (h : l.dropWhile Char.isDigit = []) :
    tokenToRat l = (digitsVal l : ℚ) := by
  have hl : l.takeWhile Char.isDigit = l := by
    conv_lhs => rw [← List.append_nil (l.takeWhile Char.isDigit)]
    rw [← h, List.takeWhile_append_dropWhile]
  simp [tokenToRat, h, hl, digitsVal]

/-- Evaluation: the attribute string `0` parses to the number `0`. -/
theorem attrToken_zero : attrToken (some "0") = some 0 := by
  have h : attrToken (some "0") = some (tokenToRat ['0']) := rfl
  rw [h, tokenToRat_intlike ['0'] rfl]
  norm_num [show digitsVal ['0'] = 0 from rfl]

/-- Evaluation: the attribute string `50` parses to the number `50`. -/
theorem attrToken_fifty : attrToken (some "50") = some 50 := by
  have h : attrToken (some "50") = some (tokenToRat ['5', '0']) := rfl
  rw [h, tokenToRat_intlike ['5', '0'] rfl]
  norm_num [show digitsVal ['5', '0'] = 50 from rfl]

/-- Evaluation: the attribute string `100px` parses to the number `100`
(leading numeric token, unit suffix tolerated). -/
theorem attrToken_100px : attrToken (some "100px") = some 100 := by
  have h : attrToken (some "100px") = some (tokenToRat ['1', '0', '0']) := rfl
  rw [h, tokenToRat_intlike ['1', '0', '0'] rfl]
  norm_num [show digitsVal ['1', '0', '0'] = 100 from rfl]

/-- Evaluation: Python `float` on the field `0`. -/
theorem pyFloat_z : pyFloat ['0'] = some 0 := by
  have h : pyFloat ['0'] = some (1 * ((digitsVal ['0'] : ℕ) : ℚ)) := rfl
  rw [h]
  norm_num [show digitsVal ['0'] = 0 from rfl]

/-- Evaluation: Python `float` on the field `7`. -/
theorem pyFloat_seven : pyFloat ['7'] = some 7 := by
  have h : pyFloat ['7'] = some (1 * ((digitsVal ['7'] : ℕ) : ℚ)) := rfl
  rw [h]
  norm_num [show digitsVal ['7'] = 7 from rfl]

/-- Evaluation: Python `float` on the field `8`. -/
theorem pyFloat_eight : pyFloat ['8'] = some 8 := by
  have h : pyFloat ['8'] = some (1 * ((digitsVal ['8'] : ℕ) : ℚ)) := rfl
  rw [h]
  norm_num [show digitsVal ['8'] = 8 from rfl]

/-- Evaluation: Python `float` on the field `100`. -/
theorem pyFloat_hundred : pyFloat ['1', '0', '0'] = some 100 := by
  have h : pyFloat ['1', '0', '0'] = some (1 * ((digitsVal ['1', '0', '0'] : ℕ) : ℚ)) := rfl
  rw [h]
  norm_num [show digitsVal ['1', '0', '0'] = 100 from rfl]

/-- C5 counterexample: with `width="0"` and `height="50"` both attributes
are present and their leading numeric tokens parse (to `0` and `50`), yet
the reader does not return them — the truthiness check on the parsed float
sends it to the (absent) `viewBox` and it returns Unknown. -/
theorem c5_counterexample :
    attrToken (some "0") = some 0 ∧ attrToken (some "50") = some 50 ∧
    get_svg_dimensions
        (.parsed { width := some "0", height := some "50", viewBox := none }) "x.svg"
      = ((none, none), []) := by
  refine ⟨attrToken_zero, attrToken_fifty, ?_⟩
  simp [get_svg_dimensions, attrToken_zero, attrToken_fifty, truthyQ, viewBoxFallback]

/-- C5 amended: the reader returns the leading numeric tokens of `width` and
`height` when both are present and parse to nonzero numbers (a token parsing
to `0` is treated like an unparsable one); otherwise it takes the `viewBox`
arm, which returns the third and fourth whitespace-separated tokens when the
attribute has exactly four parseable fields, returns Unknown otherwise (an
unparsable third or fourth field is caught and logged), and malformed XML
never throws — it yields Unknown plus a log event. -/
theorem c5_amended :
    (∀ (root : SvgRoot) (fname : String) (qw qh : ℚ),
      attrToken root.width = some qw → qw ≠ 0 →
      attrToken root.height = some qh → qh ≠ 0 →
      get_svg_dimensions (.parsed root) fname = ((some qw, some qh), [])) ∧
    (∀ (root : SvgRoot) (fname : String),
      (truthyQ (attrToken root.width) && truthyQ (attrToken root.height)) = false →
      get_svg_dimensions (.parsed root) fname = viewBoxFallback root.viewBox fname) ∧
    (∀ (s : String) (fname : String) (p0 p1 p2 p3 : List Char) (w h : ℚ),
      s.data.isEmpty = false → pySplitWs s = [p0, p1, p2, p3] →
      pyFloat p2 = some w → pyFloat p3 = some h →
      viewBoxFallback (some s) fname = ((some w, some h), [])) ∧
    (∀ (s : String) (fname : String) (p0 p1 p2 p3 : List Char),
      s.data.isEmpty = false → pySplitWs s = [p0, p1, p2, p3] →
      pyFloat p2 = none →
      viewBoxFallback (some s) fname = ((none, none), [dimsLogMsg fname])) ∧
    (∀ fname : String, viewBoxFallback none fname = ((none, none), [])) ∧
    (∀ fname : String,
      get_svg_dimensions .malformed fname = ((none, none), [dimsLogMsg fname])) := by
  refine ⟨?_, ?_, ?_, ?_, fun _ => rfl, fun _ => rfl⟩
  · intro root fname qw qh hw hw0 hh hh0
    simp [get_svg_dimensions, hw, hh, truthyQ, hw0, hh0]
  · intro root fname h
    simp [get_svg_dimensions, h]
  · intro s fname p0 p1 p2 p3 w h hne hsplit hw hh
    simp [viewBoxFallback, hne, hsplit, hw, hh]
  · intro s fname p0 p1 p2 p3 hne hsplit hw
    simp [viewBoxFallback, hne, hsplit, hw]

/-- Witness for `c5_amended`: the nonzero, viewBox, and caught-failure arms
discharged at concrete documents. -/
theorem c5_amended_witness :
    get_svg_dimensions
        (.parsed { width := some "100px", height := some "50", viewBox := none }) "w.svg"
      = ((some 100, some 50), []) ∧
    viewBoxFallback (some "0 0 7 8") "w.svg" = ((some 7, some 8), []) ∧
    viewBoxFallback (some "0 0 x 8") "w.svg" = ((none, none), [dimsLogMsg "w.svg"]) :=
  ⟨c5_amended.1 { width := some "100px", height := some "50", viewBox := none } "w.svg"
      100 50 attrToken_100px (by norm_num) attrToken_fifty (by norm_num),
   c5_amended.2.2.1 "0 0 7 8" "w.svg" ['0'] ['0'] ['7'] ['8'] 7 8
      (by decide) (by decide) pyFloat_seven pyFloat_eight,
   c5_amended.2.2.2.1 "0 0 x 8" "w.svg" ['0'] ['0'] ['x'] ['8']
      (by decide) (by decide) rfl⟩

/-- C6 counterexample: when the renderer raises inside `convert_to_jpg`, the
call propagates the exception and the intermediate temporary PNG is NOT
removed — there is no `try`/`finally` around the `os.unlink`. -/
theorem c6_counterexample :
    (convert_to_jpg pngFailEnv (cfgFor "desainstock" 1 false) logo "logo" "Desainstock" st0).isOk
      = false ∧
    tempName "logo" "Desainstock"
      ∈ (convert_to_jpg pngFailEnv (cfgFor "desainstock" 1 false) logo "logo"
          "Desainstock" st0).state.temps := by
  exact ⟨rfl, by decide⟩

/-- C6 amended: the temporary PNG of a `convert_to_jpg` call is removed on
the successful exit path only; when the renderer or the image library
raises, the exception propagates out of the call and the temporary file is
left behind. -/
theorem c6_amended (env : Env) (cfg : Cfg) (a : Asset) (base platform : String) (st : St) :
    ((env.svg2pngFails || env.imageLibFails) = false →
      (convert_to_jpg env cfg a base platform st).isOk = true ∧
      tempName base platform ∉ (convert_to_jpg env cfg a base platform st).state.temps) ∧
    ((env.svg2pngFails || env.imageLibFails) = true →
      (convert_to_jpg env cfg a base platform st).isOk = false ∧
      tempName base platform ∈ (convert_to_jpg env cfg a base platform st).state.temps) := by
  constructor
  · intro h
    rw [Bool.or_eq_false_iff] at h
    refine ⟨by simp [convert_to_jpg, h.1, h.2], ?_⟩
    simp [convert_to_jpg, h.1, h.2, Res.state, List.mem_filter]
  · intro h
    cases hp : env.svg2pngFails with
    | true =>
      refine ⟨by simp [convert_to_jpg, hp], ?_⟩
      simp [convert_to_jpg, hp, Res.state]
    | false =>
      rw [hp, Bool.false_or] at h
      refine ⟨by simp [convert_to_jpg, hp, h], ?_⟩
      simp [convert_to_jpg, hp, h, Res.state]

/-- Witness for `c6_amended`: the temporary is gone after a clean call and
present after a failing one, at concrete inputs. -/
theorem c6_amended_witness :
    tempName "logo" "Desainstock"
      ∉ (convert_to_jpg cleanEnv (cfgFor "desainstock" 1 false) logo "logo"
          "Desainstock" st0).state.temps ∧
    tempName "logo" "Desainstock"
      ∈ (convert_to_jpg pngFailEnv (cfgFor "desainstock" 1 false) logo "logo"
          "Desainstock" st0).state.temps :=
  ⟨((c6_amended cleanEnv (cfgFor "desainstock" 1 false) logo "logo" "Desainstock" st0).1
      rfl).2,
   ((c6_amended pngFailEnv (cfgFor "desainstock" 1 false) logo "logo" "Desainstock" st0).2
      rfl).2⟩

/-- Evaluation: the attribute string `200` parses to the number `200`. -/
theorem attrToken_200 : attrToken (some "200") = some 200 := by
  have h : attrToken (some "200") = some (tokenToRat ['2', '0', '0']) := rfl
  rw [h, tokenToRat_intlike ['2', '0', '0'] rfl]
  norm_num [show digitsVal ['2', '0', '0'] = 200 from rfl]

/-- Evaluation: the attribute string `100` parses to the number `100`. -/
theorem attrToken_100 : attrToken (some "100") = some 100 := by
  have h : attrToken (some "100") = some (tokenToRat ['1', '0', '0']) := rfl
  rw [h, tokenToRat_intlike ['1', '0', '0'] rfl]
  norm_num [show digitsVal ['1', '0', '0'] = 100 from rfl]

/-- Evaluation: the representative asset has intrinsic size `200 × 100`. -/
theorem logo_dims_eval : get_svg_dimensions logo.doc "logo.svg" = ((some 200, some 100), []) := by
  have hd : logo.doc
      = .parsed { width := some "200", height := some "100", viewBox := none } := rfl
  rw [hd]
  norm_num [get_svg_dimensions, truthyQ, attrToken_200, attrToken_100]

/-- Evaluation: the zero-width document yields a KNOWN width `0` (and
height `100`) through the `viewBox` arm. -/
theorem zeroWidthDoc_dims :
    get_svg_dimensions zeroWidthDoc "logo.svg" = ((some 0, some 100), []) := by
  have hsp : pySplitWs "0 0 0 100" = [['0'], ['0'], ['0'], ['1', '0', '0']] := rfl
  simp [zeroWidthDoc, get_svg_dimensions, attrToken, truthyQ, viewBoxFallback, hsp,
    pyFloat_z, pyFloat_hundred]

/-- Evaluation: on the zero-width document the Inkscape fallback substitutes
the default width `int(1000 * factor)` for factor 2. -/
theorem epsFallbackWidth_zero2 :
    epsFallbackWidth zeroWidthDoc "logo.svg" 2 = (2000, [epsDefaultMsg]) := by
  simp [epsFallbackWidth, zeroWidthDoc_dims]

/-- C8 counterexample: for a document whose metadata reader returns the
KNOWN intrinsic width `0` (viewBox `0 0 0 100`), the Inkscape fallback does
not pass `int(intrinsicWidth * factor) = 0`: the truthiness test treats `0`
like Unknown and the substituted default `int(1000 * 2) = 2000` is passed as
`--export-width`, as the produced file records. -/
theorem c8_counterexample :
    (get_svg_dimensions zeroWidthDoc "logo.svg").1.1 = some 0 ∧
    (epsFallbackWidth zeroWidthDoc "logo.svg" 2).1 = 2000 ∧
    pyTrunc ((0 : ℚ) * ((2 : ℤ) : ℚ)) = 0 ∧ (2000 : ℤ) ≠ 0 ∧
    getFile (convert_to_eps (mkEpsEnv true true false) (cfgFor "shutterstock" 2 false)
        logoZ "logo" "Shutterstock" st0).state.files
        (outPath (cfgFor "shutterstock" 2 false) "Shutterstock" "logo" ".eps")
      = some (.epsInkscape logoZ.path 2000) := by
  refine ⟨by rw [zeroWidthDoc_dims], by rw [epsFallbackWidth_zero2], ?_, by norm_num, ?_⟩
  · norm_num [pyTrunc]
  · have hdoc : logoZ.doc = zeroWidthDoc := rfl
    have hname : logoZ.name = "logo.svg" := rfl
    simp [convert_to_eps, mkEpsEnv, cleanEnv, cfgFor, hdoc, hname, epsFallbackWidth_zero2,
      getFile_setFile]

/-- C8 amended: the `--export-width` passed by the Inkscape fallback equals
`int(intrinsicWidth * factor)` when the metadata reader returns a KNOWN,
NONZERO width; when the width is Unknown — or known but `0`, which the
truthiness test conflates with Unknown — the default `int(1000 * factor)`
is substituted together with the logged substitution message; the produced
fallback EPS records exactly this width. -/
theorem c8_amended :
    (∀ (doc : SvgDoc) (fname : String) (f : ℤ) (q : ℚ),
      (get_svg_dimensions doc fname).1.1 = some q → q ≠ 0 →
      epsFallbackWidth doc fname f
        = (pyTrunc (q * (f : ℚ)), (get_svg_dimensions doc fname).2)) ∧
    (∀ (doc : SvgDoc) (fname : String) (f : ℤ),
      (get_svg_dimensions doc fname).1.1 = none →
      epsFallbackWidth doc fname f
        = (1000 * f, (get_svg_dimensions doc fname).2 ++ [epsDefaultMsg])) ∧
    (∀ (doc : SvgDoc) (fname : String) (f : ℤ),
      (get_svg_dimensions doc fname).1.1 = some 0 →
      epsFallbackWidth doc fname f
        = (1000 * f, (get_svg_dimensions doc fname).2 ++ [epsDefaultMsg])) ∧
    (∀ (env : Env) (cfg : Cfg) (a : Asset) (base platform : String) (st : St),
      env.svg2epsFails = true → env.inkscapeFound = true → env.inkscapeEpsFails = false →
      getFile (convert_to_eps env cfg a base platform st).state.files
          (outPath cfg platform base ".eps")
        = some (.epsInkscape a.path (epsFallbackWidth a.doc a.name cfg.scale_factor).1)) := by
  refine ⟨?_, ?_, ?_, ?_⟩
  · intro doc fname f q h h0
    simp [epsFallbackWidth, h, h0]
  · intro doc fname f h
    simp [epsFallbackWidth, h]
  · intro doc fname f h
    simp [epsFallbackWidth, h]
  · intro env cfg a base platform st h1 h2 h3
    simp [convert_to_eps, h1, h2, h3, getFile_setFile]

/-- Witness for `c8_amended`: on the representative `200 × 100` asset with
factor 3 the fallback width is `int(200 * 3) = 600`. -/
theorem c8_amended_witness : (epsFallbackWidth logo.doc "logo.svg" 3).1 = 600 := by
  have h := c8_amended.1 logo.doc "logo.svg" 3 200 (by rw [logo_dims_eval]) (by norm_num)
  rw [h]
  norm_num [pyTrunc, show ((600 : ℚ)).num = 600 from rfl, show ((600 : ℚ)).den = 1 from rfl]

/-- C9: when the Inkscape executable does not resolve, or its crop
invocation fails, `convert_svg_cropped` writes to the destination exactly
the source bytes — the same state `copy_svg` would produce — and logs a
warning, while a successful crop writes cropped content and logs the
"cropped" message instead. -/
theorem c9_crop_fallback (env : Env) (cfg : Cfg) (a : Asset) (base platform : String) (st : St) :
    (env.copyFails = false → env.inkscapeFound = false →
      (convert_svg_cropped env cfg a base platform st).val
          = some (outPath cfg platform base ".svg") ∧
      getFile (convert_svg_cropped env cfg a base platform st).state.files
          (outPath cfg platform base ".svg") = some (.bytes a.bytes) ∧
      Ev.log "WARNING: Inkscape not found, falling back to basic cropping"
          ∈ (convert_svg_cropped env cfg a base platform st).events ∧
      (convert_svg_cropped env cfg a base platform st).state
          = (copy_svg env cfg a base platform st).state) ∧
    (env.copyFails = false → env.inkscapeFound = true → env.inkscapeCropFails = true →
      (convert_svg_cropped env cfg a base platform st).val
          = some (outPath cfg platform base ".svg") ∧
      getFile (convert_svg_cropped env cfg a base platform st).state.files
          (outPath cfg platform base ".svg") = some (.bytes a.bytes) ∧
      Ev.log "WARNING: Inkscape cropping failed: subprocess error, falling back to basic cropping"
          ∈ (convert_svg_cropped env cfg a base platform st).events ∧
      (convert_svg_cropped env cfg a base platform st).state
          = (copy_svg env cfg a base platform st).state) ∧
    (env.inkscapeFound = true → env.inkscapeCropFails = false →
      getFile (convert_svg_cropped env cfg a base platform st).state.files
          (outPath cfg platform base ".svg") = some (.svgCropped a.path) ∧
      Ev.log ("Created cropped SVG using Inkscape: " ++ outPath cfg platform base ".svg")
          ∈ (convert_svg_cropped env cfg a base platform st).events) := by
  refine ⟨?_, ?_, ?_⟩
  · intro hc h6
    simp [convert_svg_cropped, copy_svg, hc, h6, getFile_setFile]
  · intro hc h6 h8
    simp [convert_svg_cropped, copy_svg, hc, h6, h8, getFile_setFile]
  · intro h6 h8
    simp [convert_svg_cropped, h6, h8, getFile_setFile]

/-- Witness for `c9_crop_fallback`: on the tool-unavailable environment the
written MiriCanvas file holds exactly the source bytes. -/
theorem c9_crop_fallback_witness :
    getFile (convert_svg_cropped epsBothFailEnv (cfgFor "miricanvas" 1 false) logo "logo"
        "MiriCanvas" st0).state.files
        (outPath (cfgFor "miricanvas" 1 false) "MiriCanvas" "logo" ".svg")
      = some (.bytes logo.bytes) :=
  ((c9_crop_fallback epsBothFailEnv (cfgFor "miricanvas" 1 false) logo "logo" "MiriCanvas"
      st0).1 rfl rfl).2.1

/-- C10: a `width` or `height` attribute that parses to the number `0` sends
the reader to the `viewBox` arm exactly as if the attribute were absent (a
truthiness test, not a presence test), and the Inkscape fallback treats a
known intrinsic width `0` like Unknown, substituting the default
`int(1000 * factor)` and logging the substitution. -/
theorem c10_zero_truthiness :
    (∀ (root : SvgRoot) (fname : String),
      attrToken root.width = some 0 →
      get_svg_dimensions (.parsed root) fname = viewBoxFallback root.viewBox fname) ∧
    (∀ (root : SvgRoot) (fname : String),
      attrToken root.height = some 0 →
      get_svg_dimensions (.parsed root) fname = viewBoxFallback root.viewBox fname) ∧
    (∀ (doc : SvgDoc) (fname : String) (f : ℤ),
      (get_svg_dimensions doc fname).1.1 = some 0 →
      (epsFallbackWidth doc fname f).1 = 1000 * f ∧
        epsDefaultMsg ∈ (epsFallbackWidth doc fname f).2) := by
  refine ⟨?_, ?_, ?_⟩
  · intro root fname h
    simp [get_svg_dimensions, h, truthyQ]
  · intro root fname h
    simp [get_svg_dimensions, h, truthyQ]
  · intro doc fname f h
    simp [epsFallbackWidth, h]

/-- Witness for `c10_zero_truthiness`: a zero width attribute falls back to
the viewBox, and the zero-width document gets the default fallback width. -/
theorem c10_zero_truthiness_witness :
    get_svg_dimensions
        (.parsed { width := some "0", height := some "50", viewBox := some "0 0 7 8" }) "t.svg"
      = viewBoxFallback (some "0 0 7 8") "t.svg" ∧
    (epsFallbackWidth zeroWidthDoc "logo.svg" 2).1 = 2000 := by
  constructor
  · exact c10_zero_truthiness.1
      { width := some "0", height := some "50", viewBox := some "0 0 7 8" } "t.svg"
      attrToken_zero
  · have h := (c10_zero_truthiness.2.2 zeroWidthDoc "logo.svg" 2 (by rw [zeroWidthDoc_dims])).1
    rw [h]
    norm_num

/-- On a list of real (non-`None`) paths the archive loop collects exactly
the existing paths, keyed by basename, and raises nothing. -/
theorem zipCollect_map_some (fs : List (String × FileData)) (ps : List String) :
    zipCollect fs (ps.map some)
      = ((ps.filter (fun p => existsFile fs p)).map (fun p => (basename p, p)), none) := by
  induction ps with
  | nil => rfl
  | cons p rest ih =>
    simp only [List.map_cons, zipCollect, ih, List.filter_cons]
    cases h : existsFile fs p
    · simp [h]
    · simp [h]

/-- A file is present exactly when some entry carries its path. -/
theorem existsFile_iff (fs : List (String × FileData)) (p : String) :
    existsFile fs p = true ↔ ∃ e ∈ fs, e.1 = p := by
  simp [existsFile, List.any_eq_true]

/-- Removing one path keeps every other present path present. -/
theorem existsFile_removeFile (fs : List (String × FileData)) {p q : String}
    (h : p ≠ q) (hex : existsFile fs p = true) :
    existsFile (removeFile fs q) p = true := by
  rw [existsFile_iff] at hex ⊢
  obtain ⟨e, he, hep⟩ := hex
  refine ⟨e, List.mem_filter.mpr ⟨he, ?_⟩, hep⟩
  simp [hep, h]

/-- The deletion loop on real paths never raises. -/
theorem delete_loop_isOk (env : Env) (ps : List String) : ∀ st : St,
    (delete_files_loop env (ps.map some) st).isOk = true := by
  induction ps with
  | nil => intro st; rfl
  | cons p rest ih =>
    intro st
    simp only [List.map_cons, delete_files_loop]
    cases hex : existsFile st.files p with
    | false => simp [ih]
    | true => cases hrf : env.removeFails.contains p <;> simp [hrf, ih]

/-- Entries of a filesystem on which a path is absent never carry it. -/
theorem beq_false_of_not_existsFile {fs : List (String × FileData)} {p : String}
    (hex : existsFile fs p = false) :
    ∀ e ∈ fs, (e.1 == p) = false := by
  intro e he
  have h0 : ¬ ∃ e2 ∈ fs, e2.1 = p := by
    rw [← existsFile_iff]
    simp [hex]
  exact beq_eq_false_iff_ne.mpr (fun hc => h0 ⟨e, he, hc⟩)

/-- Final filesystem of the deletion loop: every listed, existing path whose
removal does not fail is gone; failed removals and unlisted paths remain. -/
theorem delete_loop_files (env : Env) (ps : List String) : ∀ st : St,
    (delete_files_loop env (ps.map some) st).state.files
      = st.files.filter (fun e => !(ps.contains e.1 && !(env.removeFails.contains e.1))) := by
  induction ps with
  | nil =>
    intro st
    refine Eq.symm (List.filter_eq_self.mpr ?_)
    intro e he
    simp
  | cons p rest ih =>
    intro st
    simp only [List.map_cons, delete_files_loop]
    cases hex : existsFile st.files p with
    | false =>
      simp only [Bool.false_eq_true, if_false]
      rw [ih st]
      refine List.filter_congr ?_
      intro e he
      simp only [List.contains_cons, beq_false_of_not_existsFile hex e he, Bool.false_or]
    | true =>
      cases hrf : env.removeFails.contains p with
      | true =>
        have hmem : p ∈ env.removeFails := by simpa using hrf
        simp only [hrf, if_true, Res.state_withEvs]
        rw [ih st]
        refine List.filter_congr ?_
        intro e he
        by_cases hep : e.1 = p
        · simp [List.contains_cons, hep, hmem]
        · simp [List.contains_cons, hep]
      | false =>
        have hmem : p ∉ env.removeFails := by simpa using hrf
        simp only [hrf, if_true, if_false, Bool.false_eq_true, Res.state_withEvs]
        rw [ih { st with files := removeFile st.files p }]
        show (removeFile st.files p).filter _ = _
        rw [removeFile, List.filter_filter]
        refine List.filter_congr ?_
        intro e he
        by_cases hep : e.1 = p
        · simp [List.contains_cons, hep, hmem]
        · simp [List.contains_cons, hep]

/-- Every failed removal of a listed, existing path is logged, whatever
else the loop does before or after it. -/
theorem delete_loop_logs (env : Env) (ps : List String) : ∀ (st : St) (p : String),
    p ∈ ps → env.removeFails.contains p = true → existsFile st.files p = true →
    Ev.log ("ERROR deleting file " ++ p ++ ": OSError")
      ∈ (delete_files_loop env (ps.map some) st).events := by
  induction ps with
  | nil =>
    intro st p hp
    cases hp
  | cons q rest ih =>
    intro st p hp hrf hex
    simp only [List.map_cons, delete_files_loop]
    rcases List.mem_cons.mp hp with heq | hp2
    · subst heq
      have hmem : p ∈ env.removeFails := by simpa using hrf
      simp [hex, hmem]
    · cases hex0 : existsFile st.files q with
      | false =>
        simp only [Bool.false_eq_true, if_false]
        exact ih st p hp2 hrf hex
      | true =>
        cases hrf0 : env.removeFails.contains q with
        | true =>
          simp only [hrf0, if_true, Res.events_withEvs]
          exact List.mem_append_right _ (ih st p hp2 hrf hex)
        | false =>
          have hpq : p ≠ q := by
            intro hh
            rw [hh, hrf0] at hrf
            cases hrf
          simp only [hrf0, Bool.false_eq_true, if_false, if_true, Res.events_withEvs]
          refine List.mem_append_right _ ?_
          exact ih { st with files := removeFile st.files q } p hp2 hrf
            (existsFile_removeFile st.files hpq hex)

/-- C7: `create_zip_file` writes a `ZIP_DEFLATED` archive whose entries are
exactly the listed paths that exist at bundling time, stored by basename
only; `delete_files` then never raises on real paths, removes exactly the
listed paths whose removal succeeds, and logs each removal failure while
continuing with the remaining files. -/
theorem c7_bundle_delete (env : Env) (cfg : Cfg) (ps qs : List String)
    (base platform : String) (st st2 : St) :
    (env.zipOpenFails = false →
      (create_zip_file env cfg (ps.map some) base platform st).isOk = true ∧
      getFile (create_zip_file env cfg (ps.map some) base platform st).state.files
          (outPath cfg platform base ".zip")
        = some (.zipArchive "ZIP_DEFLATED"
            ((ps.filter (fun p => existsFile st.files p)).map (fun p => (basename p, p))))) ∧
    ((delete_files env (qs.map some) st2).isOk = true ∧
      (delete_files env (qs.map some) st2).state.files
        = st2.files.filter (fun e => !(qs.contains e.1 && !(env.removeFails.contains e.1))) ∧
      ∀ p, p ∈ qs → env.removeFails.contains p = true → existsFile st2.files p = true →
        Ev.log ("ERROR deleting file " ++ p ++ ": OSError")
          ∈ (delete_files env (qs.map some) st2).events) := by
  refine ⟨?_, ?_, ?_, ?_⟩
  · intro h
    refine ⟨?_, ?_⟩
    · simp [create_zip_file, h, zipCollect_map_some]
    · simp [create_zip_file, h, zipCollect_map_some, getFile_setFile]
  · simp [delete_files, delete_loop_isOk]
  · simp [delete_files, delete_loop_files]
  · intro p hp hrf hex
    simp only [delete_files, Res.events_withEvs]
    exact List.mem_append_right _ (delete_loop_logs env qs st2 p hp hrf hex)

/-- Filesystem holding one of the two files a bundling call lists. -/
def stZip : St :=
  { files := [("out/PNGTree/logo.png", .bytes "P")], temps := [] }

/-- Environment on which removing the bundled PNG raises. -/
def rmFailEnv : Env := { cleanEnv with removeFails := ["out/PNGTree/logo.png"] }

/-- Witness for `c7_bundle_delete`: bundling skips the missing path and
keys the existing one by basename; a failing removal of an existing listed
path is logged. -/
theorem c7_bundle_delete_witness :
    getFile (create_zip_file cleanEnv (cfgFor "pngtree" 1 false)
        (["out/PNGTree/logo.png", "out/PNGTree/missing.eps"].map some) "logo" "PNGTree"
        stZip).state.files
        (outPath (cfgFor "pngtree" 1 false) "PNGTree" "logo" ".zip")
      = some (.zipArchive "ZIP_DEFLATED" [("logo.png", "out/PNGTree/logo.png")]) ∧
    Ev.log "ERROR deleting file out/PNGTree/logo.png: OSError"
      ∈ (delete_files rmFailEnv (["out/PNGTree/logo.png"].map some) stZip).events := by
  constructor
  · have h := ((c7_bundle_delete cleanEnv (cfgFor "pngtree" 1 false)
        ["out/PNGTree/logo.png", "out/PNGTree/missing.eps"] [] "logo" "PNGTree"
        stZip st0).1 rfl).2
    rw [h]
    rfl
  · exact (c7_bundle_delete rmFailEnv (cfgFor "pngtree" 1 false) []
        ["out/PNGTree/logo.png"] "logo" "PNGTree" st0 stZip).2.2.2
        "out/PNGTree/logo.png" (by decide) rfl rfl

end SvgMetagen

